import Mathlib

/-!
Verification of the awair_exporter repository (src/main.go).

The Go program is shallowly embedded: pure string manipulation is
translated directly; the Go `map[string]string` is modelled as an
association list with overwrite-on-insert semantics (extensionally the
same mapping, with cardinality = number of distinct keys); `float64`
values are modelled as rationals (all arithmetic the program performs on
them — `c*9/5 + 32` — is exact on the inputs the spec speaks about);
the network interaction of one scrape (`http.Client.Get` plus the body
decode) is abstracted into a `ScrapeOutcome` value, and the concurrent
fan-out of `Collect` with its `sync.WaitGroup` join barrier is modelled
by its post-join result: the union of every device's contribution.
-/

set_option autoImplicit false

namespace AwairExporter

/-! ## Device registry: parseDevices (src/main.go lines 54-67) -/

/-- Index of the last occurrence of `c` in `l`, as in Go
`strings.LastIndex` (specialised to a one-character separator; the
tokens involved are ASCII, so Go's byte indices and these character
indices coincide). `none` models Go's `-1`. -/
def lastIndex (c : Char) : List Char → Option Nat
  | [] => none
  | x :: xs =>
    match lastIndex c xs with
    | some i => some (i + 1)
    | none => if x = c then some 0 else none

/-- The error produced by `parseDevices` for a token with no `=`:
Go's `fmt.Errorf("expected key=value, got %q", arg)`, which names the
offending token. -/
inductive ParseError where
  | malformedDeviceSpec (token : String)
deriving DecidableEq, Repr

deriving instance DecidableEq for Except

/-- Go map assignment `m[k] = v`: overwrite the binding of `k` if
present, otherwise add a new binding. -/
def mapInsert (m : List (String × String)) (k v : String) : List (String × String) :=
  if m.any (fun p => p.1 == k) then
    m.map (fun p => if p.1 == k then (k, v) else p)
  else
    m ++ [(k, v)]

/-- Go map read `m[k]`, as an `Option`: the value at the (unique)
binding of `k`, if any. -/
def mapLookup : List (String × String) → String → Option String
  | [], _ => none
  | p :: m, k => if p.1 == k then some p.2 else mapLookup m k

/-- The loop body of `parseDevices`: walk the argument list, splitting
each token at the last `=` and inserting into the accumulated map;
return the error on the first token with no `=` (Go returns there). -/
def parseDevicesGo : List String → List (String × String) → Except ParseError (List (String × String))
  | [], devices => Except.ok devices
  | arg :: rest, devices =>
    match lastIndex '=' arg.toList with
    | none => Except.error (ParseError.malformedDeviceSpec arg)
    | some index =>
      parseDevicesGo rest
        (mapInsert devices (String.mk (arg.toList.take index)) (String.mk (arg.toList.drop (index + 1))))

/-- `parseDevices` parses a list of `key=value` strings into a map, as
in src/main.go lines 55-67. -/
def parseDevices (args : List String) : Except ParseError (List (String × String)) :=
  parseDevicesGo args []

/-- The split a single token receives inside `parseDevices`: `none`
when the token has no `=`, otherwise the (name, address) pair cut at
the last `=` (name = `arg[:index]`, address = `arg[index+1:]`). -/
def splitLastEq (arg : String) : Option (String × String) :=
  match lastIndex '=' arg.toList with
  | none => none
  | some index => some (String.mk (arg.toList.take index), String.mk (arg.toList.drop (index + 1)))

/-- The name a token parses to (first component of `splitLastEq`). -/
def nameOf (arg : String) : String :=
  match splitLastEq arg with
  | some p => p.1
  | none => ""

/-- The address a token parses to (second component of `splitLastEq`). -/
def valueOf (arg : String) : String :=
  match splitLastEq arg with
  | some p => p.2
  | none => ""

/-- The address of the last token in `args` that parses to name `k`
(`none` when no token does): the value "last write wins" predicts for
`k` in the parsed map. -/
def lastValueFor (args : List String) (k : String) : Option String :=
  (((args.filterMap splitLastEq).reverse.find? (fun p => p.1 == k)).map Prod.snd)

/-! ## Measurement model (src/main.go lines 256-319) -/

/-- `celsiusToFahrenheit` (src/main.go lines 317-319), over ℚ in place
of `float64`; the expression `tempC*9/5 + 32` is translated verbatim. -/
def celsiusToFahrenheit (tempC : ℚ) : ℚ :=
  tempC * 9 / 5 + 32

/-- The decoded JSON body (the anonymous `airData` struct of
src/main.go lines 274-291). Go `float64` fields become ℚ, `int` fields
become ℤ. -/
structure AirData where
  timestamp : String
  score : Int
  dewPoint : ℚ
  temp : ℚ
  humid : ℚ
  absHumid : ℚ
  co2 : Int
  co2Est : Int
  co2EstBaseline : Int
  voc : Int
  vocBaseline : Int
  vocH2Raw : Int
  vocEthanolRaw : Int
  pm25 : Int
  pm10Est : Int
deriving DecidableEq, Repr

/-- The outcome of one device's `c.Client.Get` plus body decode:
either a transport-level failure (`err != nil` from `Get`), or a
response carrying its HTTP status code together with what decoding the
body yields (`none` = `json.Decoder.Decode` fails; the decode field is
only consulted when the status is 200, as in the code). -/
inductive ScrapeOutcome where
  | transportFailure
  | response (statusCode : Nat) (body : Option AirData)
deriving DecidableEq, Repr

/-- The two `prometheus.ValueType`s this program uses. -/
inductive MetricType where
  | counter
  | gauge
deriving DecidableEq, Repr

/-- One emitted metric: `prometheus.MustNewConstMetric(desc, vt, value,
labels...)` keyed by the descriptor's metric name. -/
structure Metric where
  descName : String
  mtype : MetricType
  value : ℚ
  labels : List String
deriving DecidableEq, Repr

/-- The URL composed for a device (src/main.go line 257). -/
def scrapeURL (addr : String) : String :=
  "http://" ++ addr ++ "/air-data/latest"

/-- `collector.collectOne` (src/main.go lines 256-315) as a function
from the scrape outcome to the list of metrics sent on `ch`, in send
order. The three branches mirror the source: transport failure returns
with nothing emitted; a non-200 status emits one error counter with
value 1 and returns; a decode failure emits one error counter with
value 1 and returns; success emits the sixteen gauges of lines
299-314 (the source passes `labels...` everywhere except the decode
failure, where it passes `name` directly — the same single label). -/
def collectOne (name addr : String) (outcome : ScrapeOutcome) : List Metric :=
  match outcome with
  | ScrapeOutcome.transportFailure => []
  | ScrapeOutcome.response statusCode body =>
    let labels := [name]
    if statusCode ≠ 200 then
      [⟨"awair_collection_errors_total", MetricType.counter, 1, labels⟩]
    else
      match body with
      | none => [⟨"awair_collection_errors_total", MetricType.counter, 1, [name]⟩]
      | some airData =>
        [⟨"awair_score", MetricType.gauge, (airData.score : ℚ), labels⟩,
         ⟨"awair_dew_point", MetricType.gauge, airData.dewPoint, labels⟩,
         ⟨"awair_dew_point_f", MetricType.gauge, celsiusToFahrenheit airData.dewPoint, labels⟩,
         ⟨"awair_temp", MetricType.gauge, airData.temp, labels⟩,
         ⟨"awair_temp_f", MetricType.gauge, celsiusToFahrenheit airData.temp, labels⟩,
         ⟨"awair_humid", MetricType.gauge, airData.humid, labels⟩,
         ⟨"awair_abs_humid", MetricType.gauge, airData.absHumid, labels⟩,
         ⟨"awair_co2", MetricType.gauge, (airData.co2 : ℚ), labels⟩,
         ⟨"awair_co2_est", MetricType.gauge, (airData.co2Est : ℚ), labels⟩,
         ⟨"awair_co2_est_baseline", MetricType.gauge, (airData.co2EstBaseline : ℚ), labels⟩,
         ⟨"awair_voc", MetricType.gauge, (airData.voc : ℚ), labels⟩,
         ⟨"awair_voc_baseline", MetricType.gauge, (airData.vocBaseline : ℚ), labels⟩,
         ⟨"awair_voc_ethanol_raw", MetricType.gauge, (airData.vocEthanolRaw : ℚ), labels⟩,
         ⟨"awair_voc_h2_raw", MetricType.gauge, (airData.vocH2Raw : ℚ), labels⟩,
         ⟨"awair_pm25", MetricType.gauge, (airData.pm25 : ℚ), labels⟩,
         ⟨"awair_pm10_est", MetricType.gauge, (airData.pm10Est : ℚ), labels⟩]

/-- `collector.Collect` (src/main.go lines 242-254): one goroutine per
entry of `DeviceAddrs`, each running `collectOne`, with `wg.Wait()` as
a join barrier. Modelled by its post-join result: the union of every
registered device's contribution, with the registry as an ordered list
of (name, addr) pairs and the network abstracted as a function from
device name to that device's `ScrapeOutcome` in this cycle. -/
def collect (devices : List (String × String)) (outcomes : String → ScrapeOutcome) : List Metric :=
  (devices.map (fun d => collectOne d.1 d.2 (outcomes d.1))).flatten

/-- The scrape attempts one `Collect` call performs: one per registered
device, pairing it with the outcome that attempt observes. -/
def scrapeAttempts (devices : List (String × String)) (outcomes : String → ScrapeOutcome) :
    List (String × String × ScrapeOutcome) :=
  devices.map (fun d => (d.1, d.2, outcomes d.1))

/-- What one named device contributes to a `collect` call's output. -/
def deviceContribution (devices : List (String × String)) (outcomes : String → ScrapeOutcome)
    (name : String) : List Metric :=
  ((devices.filter (fun d => d.1 == name)).map (fun d => collectOne d.1 d.2 (outcomes d.1))).flatten

/-- Recognises the error-indicator metric of a named device: the
`awair_collection_errors_total` counter with value 1 and the device's
name as its single label. -/
def isErrorIndicator (name : String) (m : Metric) : Bool :=
  m.descName == "awair_collection_errors_total" && m.mtype == MetricType.counter &&
    m.value == (1 : ℚ) && m.labels == [name]

/-- Recognises a gauge-valued metric. -/
def isGauge (m : Metric) : Bool :=
  m.mtype == MetricType.gauge

/-- The value of the first metric with a given descriptor name in an
emitted batch. -/
def lookupMetricValue (out : List Metric) (n : String) : Option ℚ :=
  (out.find? (fun m => m.descName == n)).map Metric.value

/-! ## Metric descriptor catalog (src/main.go lines 69-239) -/

/-- A `prometheus.Desc` as this program builds them: fully-qualified
name, help text, and variable label names (`constLabels` is always
`nil`). The value type is not part of a descriptor; it is attached
when a metric is emitted in `collectOne`. -/
structure MetricDesc where
  fqName : String
  help : String
  variableLabels : List String
deriving DecidableEq, Repr

/-- The descriptor fields of the `collector` struct (src/main.go lines
69-92). `Client` and `DeviceAddrs` are represented separately, as the
`outcomes` function and the `devices` list of `collect`. -/
structure Collector where
  Errors : MetricDesc
  Score : MetricDesc
  DewPointC : MetricDesc
  DewPointF : MetricDesc
  TempC : MetricDesc
  TempF : MetricDesc
  Humid : MetricDesc
  AbsHumid : MetricDesc
  Co2 : MetricDesc
  Co2Est : MetricDesc
  Co2EstBaseline : MetricDesc
  Voc : MetricDesc
  VocBaseline : MetricDesc
  VocH2Raw : MetricDesc
  VocEthanolRaw : MetricDesc
  Pm25 : MetricDesc
  Pm10Est : MetricDesc
deriving DecidableEq, Repr

/-- `newCollector` (src/main.go lines 94-218): the fixed descriptor
catalog, names and help text verbatim from the source. -/
def newCollector : Collector where
  Errors := ⟨"awair_collection_errors_total",
    "Errors observed when collecting device metrics", ["sensor"]⟩
  Score := ⟨"awair_score", "Awair Score (0-100)", ["sensor"]⟩
  DewPointC := ⟨"awair_dew_point",
    "The temperature at which water will condense and form into dew (C)", ["sensor"]⟩
  DewPointF := ⟨"awair_dew_point_f",
    "The temperature at which water will condense and form into dew (F)", ["sensor"]⟩
  TempC := ⟨"awair_temp", "Dry bulb temperature (C)", ["sensor"]⟩
  TempF := ⟨"awair_temp_f", "Dry bulb temperature (F)", ["sensor"]⟩
  Humid := ⟨"awair_humid", "Relative humidity (%)", ["sensor"]⟩
  AbsHumid := ⟨"awair_abs_humid", "Absolute humidity (g/m^3)", ["sensor"]⟩
  Co2 := ⟨"awair_co2", "Carbon Dioxide (ppm)", ["sensor"]⟩
  Co2Est := ⟨"awair_co2_est",
    "Estimated Carbon Dioxide calculated by TVOC sensor (ppm)", ["sensor"]⟩
  Co2EstBaseline := ⟨"awair_co2_est_baseline",
    "A unitless value that represents the baseline from which the TVOC sensor partially derives its estimate",
    ["sensor"]⟩
  Voc := ⟨"awair_voc", "Total Volatile organic compounds (ppb)", ["sensor"]⟩
  VocBaseline := ⟨"awair_voc_baseline",
    "A unitless value that represents the baseline from which the TVOC sensor partially derives its TVOC output",
    ["sensor"]⟩
  VocH2Raw := ⟨"awair_voc_h2_raw",
    "A unitless value that represents the Hydrogen gas signal from which the TVOC sensor partially derives its TVOC output",
    ["sensor"]⟩
  VocEthanolRaw := ⟨"awair_voc_ethanol_raw",
    "A unitless value that represents the Ethanol gas signal from which the TVOC sensor partially derives its TVOC output",
    ["sensor"]⟩
  Pm25 := ⟨"awair_pm25",
    "Particulate matter less than 2.5 microns in diameter (µg/m³)", ["sensor"]⟩
  Pm10Est := ⟨"awair_pm10_est",
    "Estimated particulate matter less than 10 microns in diameter (µg/m³ - calculated by the PM2.5 sensor)",
    ["sensor"]⟩

/-- `collector.Describe` (src/main.go lines 221-239): the full
descriptor catalog, in send order. -/
def describe (c : Collector) : List MetricDesc :=
  [c.Errors, c.Score, c.DewPointC, c.DewPointF, c.TempC, c.TempF, c.Humid, c.AbsHumid,
   c.Co2, c.Co2Est, c.Co2EstBaseline, c.Voc, c.VocBaseline, c.VocH2Raw, c.VocEthanolRaw,
   c.Pm25, c.Pm10Est]

/-- A concrete decoded body, used to evaluate the embedding at a
specific input. -/
def sampleAirData : AirData where
  timestamp := "2020-01-01T00:00:00.000Z"
  score := 87
  dewPoint := 10
  temp := 20
  humid := 50
  absHumid := 8
  co2 := 400
  co2Est := 410
  co2EstBaseline := 420
  voc := 100
  vocBaseline := 110
  vocH2Raw := 120
  vocEthanolRaw := 130
  pm25 := 5
  pm10Est := 7

/-- `sampleAirData` with both Celsius-denominated fields at 0. -/
def sampleAirDataZero : AirData :=
  { sampleAirData with temp := 0, dewPoint := 0 }

/-- `sampleAirData` with the dry-bulb temperature at 100. -/
def sampleAirDataHundred : AirData :=
  { sampleAirData with temp := 100 }

/-! ## Helper lemmas about the device registry -/

theorem lastIndex_eq_none_iff (c : Char) (l : List Char) : lastIndex c l = none ↔ c ∉ l := by
  induction l with
  | nil => simp [lastIndex]
  | cons x xs ih =>
    simp only [lastIndex]
    cases h : lastIndex c xs with
    | some i =>
      have hc : c ∈ xs := by
        by_contra hc
        rw [ih.mpr hc] at h
        cases h
      simp [List.mem_cons, hc]
    | none =>
      have hc : c ∉ xs := ih.mp h
      by_cases hx : x = c
      · simp [hx]
      · have hcx : ¬c = x := fun hcx => hx hcx.symm
        simp [hx, List.mem_cons, hc, hcx]

theorem lastIndex_eq_some (c : Char) (l : List Char) (i : Nat) (h : lastIndex c l = some i) :
    l.take i ++ c :: l.drop (i + 1) = l ∧ c ∉ l.drop (i + 1) := by
  induction l generalizing i with
  | nil => simp [lastIndex] at h
  | cons x xs ih =>
    simp only [lastIndex] at h
    cases h' : lastIndex c xs with
    | some j =>
      rw [h'] at h
      injection h with h
      subst h
      obtain ⟨h1, h2⟩ := ih j h'
      refine ⟨?_, by simpa using h2⟩
      simpa [List.take_succ_cons, List.drop_succ_cons] using congrArg (x :: ·) h1
    | none =>
      rw [h'] at h
      by_cases hx : x = c
      · rw [if_pos hx] at h
        injection h with h
        subst h
        refine ⟨by simp [hx], ?_⟩
        simpa using (lastIndex_eq_none_iff c xs).mp h'
      · rw [if_neg hx] at h
        cases h

theorem splitLastEq_eq_some (arg n v : String) (h : splitLastEq arg = some (n, v)) :
    arg.toList = n.toList ++ '=' :: v.toList ∧ '=' ∉ v.toList := by
  unfold splitLastEq at h
  cases hl : lastIndex '=' arg.toList with
  | none => rw [hl] at h; cases h
  | some i =>
    rw [hl] at h
    injection h with h
    rw [Prod.mk.injEq] at h
    obtain ⟨h1, h2⟩ := h
    obtain ⟨hspec1, hspec2⟩ := lastIndex_eq_some '=' arg.toList i hl
    subst h1
    subst h2
    exact ⟨hspec1.symm, hspec2⟩

theorem parseDevicesGo_cons_some (arg : String) (rest : List String)
    (acc : List (String × String)) (n v : String) (h : splitLastEq arg = some (n, v)) :
    parseDevicesGo (arg :: rest) acc = parseDevicesGo rest (mapInsert acc n v) := by
  unfold splitLastEq at h
  cases hl : lastIndex '=' arg.toList with
  | none => rw [hl] at h; cases h
  | some i =>
    rw [hl] at h
    injection h with h
    rw [Prod.mk.injEq] at h
    obtain ⟨h1, h2⟩ := h
    subst h1
    subst h2
    have hl' : lastIndex '=' arg.data = some i := hl
    simp [parseDevicesGo, hl']

theorem parseDevicesGo_cons_none (arg : String) (rest : List String)
    (acc : List (String × String)) (h : splitLastEq arg = none) :
    parseDevicesGo (arg :: rest) acc = Except.error (ParseError.malformedDeviceSpec arg) := by
  unfold splitLastEq at h
  cases hl : lastIndex '=' arg.toList with
  | none =>
    have hl' : lastIndex '=' arg.data = none := hl
    simp [parseDevicesGo, hl']
  | some i => rw [hl] at h; cases h

theorem mapInsert_of_fresh (m : List (String × String)) (k v : String)
    (h : ∀ p ∈ m, p.1 ≠ k) : mapInsert m k v = m ++ [(k, v)] := by
  have hany : (m.any fun p => p.1 == k) = false := by
    rw [List.any_eq_false]
    intro p hp
    simpa using h p hp
  simp [mapInsert, hany]

theorem mapLookup_eq_none_of_fresh (m : List (String × String)) (k : String)
    (h : ∀ p ∈ m, p.1 ≠ k) : mapLookup m k = none := by
  induction m with
  | nil => rfl
  | cons q m ih =>
    have hq : ¬q.1 = k := h q (by simp)
    simp only [mapLookup, beq_iff_eq, if_neg hq]
    exact ih fun p hp => h p (List.mem_cons_of_mem _ hp)

theorem mapLookup_append (m₁ m₂ : List (String × String)) (k : String) :
    mapLookup (m₁ ++ m₂) k = (mapLookup m₁ k).or (mapLookup m₂ k) := by
  induction m₁ with
  | nil => simp [mapLookup]
  | cons q m ih =>
    by_cases hq : q.1 = k <;> simp [mapLookup, hq, ih]

theorem mapLookup_replace (m : List (String × String)) (k v k' : String) :
    mapLookup (m.map (fun p => if p.1 == k then (k, v) else p)) k' =
      if k' = k then (mapLookup m k).map (fun _ => v) else mapLookup m k' := by
  induction m with
  | nil => by_cases hk : k' = k <;> simp [mapLookup, hk]
  | cons q m ih =>
    simp only [List.map_cons, mapLookup]
    rw [ih]
    by_cases hqk : q.1 = k
    · by_cases hk : k' = k
      · simp [mapLookup, hqk, hk]
      · have hkk' : ¬k = k' := fun h => hk h.symm
        simp [mapLookup, hqk, hk, hkk']
    · by_cases hk : k' = k
      · have hqk' : ¬q.1 = k' := fun h => hqk (h.trans hk)
        simp [mapLookup, hqk, hqk', hk]
      · by_cases hqk' : q.1 = k'
        · simp [mapLookup, hqk, hqk', hk]
        · simp [mapLookup, hqk, hqk', hk]

theorem mapLookup_isSome_of_any (m : List (String × String)) (k : String)
    (h : (m.any fun p => p.1 == k) = true) : ∃ w, mapLookup m k = some w := by
  induction m with
  | nil => simp at h
  | cons q m ih =>
    by_cases hq : q.1 = k
    · exact ⟨q.2, by simp [mapLookup, hq]⟩
    · have h' : (m.any fun p => p.1 == k) = true := by
        simp only [List.any_cons, Bool.or_eq_true] at h
        rcases h with h | h
        · exact absurd (beq_iff_eq.mp h) hq
        · exact h
      obtain ⟨w, hw⟩ := ih h'
      exact ⟨w, by simp [mapLookup, hq, hw]⟩

theorem mapLookup_mapInsert (m : List (String × String)) (k v k' : String) :
    mapLookup (mapInsert m k v) k' = if k' = k then some v else mapLookup m k' := by
  unfold mapInsert
  by_cases hany : (m.any fun p => p.1 == k) = true
  · rw [if_pos hany, mapLookup_replace]
    by_cases hk : k' = k
    · rw [if_pos hk, if_pos hk]
      obtain ⟨w, hw⟩ := mapLookup_isSome_of_any m k hany
      rw [hw]
      rfl
    · rw [if_neg hk, if_neg hk]
  · rw [if_neg hany]
    have hfresh : ∀ p ∈ m, p.1 ≠ k := by
      intro p hp hpk
      exact hany (List.any_eq_true.mpr ⟨p, hp, beq_iff_eq.mpr hpk⟩)
    rw [mapLookup_append]
    by_cases hk : k' = k
    · rw [if_pos hk, hk, mapLookup_eq_none_of_fresh m k hfresh]
      simp [mapLookup]
    · rw [if_neg hk]
      have hkk' : ¬k = k' := fun h => hk h.symm
      have h1 : mapLookup [(k, v)] k' = none := by simp [mapLookup, hkk']
      rw [h1, Option.or_none]

theorem parseDevicesGo_nodup (args : List String) (acc : List (String × String))
    (hall : ∀ a ∈ args, (splitLastEq a).isSome)
    (hnodup : (args.map nameOf).Nodup)
    (hfresh : ∀ a ∈ args, ∀ p ∈ acc, p.1 ≠ nameOf a) :
    ∃ m, parseDevicesGo args acc = Except.ok m ∧ m.length = acc.length + args.length ∧
      (∀ p ∈ acc, p ∈ m) ∧ (∀ a ∈ args, (nameOf a, valueOf a) ∈ m) := by
  induction args generalizing acc with
  | nil => exact ⟨acc, rfl, by simp, fun p hp => hp, by simp⟩
  | cons arg rest ih =>
    obtain ⟨⟨n, v⟩, hs⟩ := Option.isSome_iff_exists.mp (hall arg (by simp))
    have hn : nameOf arg = n := by simp [nameOf, hs]
    have hv : valueOf arg = v := by simp [valueOf, hs]
    rw [parseDevicesGo_cons_some arg rest acc n v hs]
    have hfreshn : ∀ p ∈ acc, p.1 ≠ n := fun p hp => hn ▸ hfresh arg (by simp) p hp
    rw [mapInsert_of_fresh acc n v hfreshn]
    have hmap : (arg :: rest).map nameOf = nameOf arg :: rest.map nameOf := rfl
    rw [hmap, List.nodup_cons] at hnodup
    have hhead : nameOf arg ∉ rest.map nameOf := hnodup.1
    have hfresh' : ∀ a ∈ rest, ∀ p ∈ acc ++ [(n, v)], p.1 ≠ nameOf a := by
      intro a ha p hp
      rcases List.mem_append.mp hp with hp | hp
      · exact hfresh a (List.mem_cons_of_mem _ ha) p hp
      · have hpv : p = (n, v) := by simpa using hp
        subst hpv
        intro heq
        have heq' : n = nameOf a := heq
        apply hhead
        rw [hn, heq']
        exact List.mem_map_of_mem nameOf ha
    obtain ⟨m, hm, hlen, hacc, hrest⟩ :=
      ih (acc ++ [(n, v)]) (fun a ha => hall a (List.mem_cons_of_mem _ ha)) hnodup.2 hfresh'
    refine ⟨m, hm, ?_, ?_, ?_⟩
    · rw [hlen]
      simp only [List.length_append, List.length_cons, List.length_nil]
      omega
    · intro p hp
      exact hacc p (List.mem_append_left _ hp)
    · intro a ha
      rcases List.mem_cons.mp ha with rfl | ha
      · rw [hn, hv]
        exact hacc (n, v) (by simp)
      · exact hrest a ha

/-- C6: for every list of name=address tokens with unique names in
which each token contains at least one delimiter, parsing yields a
mapping with exactly as many entries as tokens, each token split at
the last occurrence of the delimiter (name = substring before the last
`=`, address = substring after it, as the characterization of
`splitLastEq` in the second conjunct states); in particular the token
"a=b=c" parses to name "a=b" and address "c". -/
theorem parseDevices_unique_names (args : List String)
    (hall : ∀ a ∈ args, (splitLastEq a).isSome)
    (hnodup : (args.map nameOf).Nodup) :
    (∃ m, parseDevices args = Except.ok m ∧ m.length = args.length ∧
        ∀ a ∈ args, (nameOf a, valueOf a) ∈ m) ∧
    (∀ a n v, splitLastEq a = some (n, v) →
        a.toList = n.toList ++ '=' :: v.toList ∧ '=' ∉ v.toList) ∧
    splitLastEq "a=b=c" = some ("a=b", "c") ∧
    parseDevices ["a=b=c"] = Except.ok [("a=b", "c")] := by
  refine ⟨?_, fun a n v h => splitLastEq_eq_some a n v h, by decide, by decide⟩
  obtain ⟨m, hm, hlen, -, hmem⟩ := parseDevicesGo_nodup args [] hall hnodup (by simp)
  exact ⟨m, hm, by simpa using hlen, hmem⟩

theorem parseDevices_unique_names_witness :
    (splitLastEq "kitchen=10.0.0.2:80").isSome ∧
    (splitLastEq "bedroom=10.0.0.3:80").isSome ∧
    ([("kitchen", "10.0.0.2:80"), ("bedroom", "10.0.0.3:80")] : List (String × String)).length =
      (["kitchen=10.0.0.2:80", "bedroom=10.0.0.3:80"] : List String).length := by
  refine ⟨by decide, by decide, ?_⟩
  obtain ⟨m, hm, hlen, hmem⟩ :=
    (parseDevices_unique_names ["kitchen=10.0.0.2:80", "bedroom=10.0.0.3:80"]
      (by decide) (by decide)).1
  have hm2 : parseDevices ["kitchen=10.0.0.2:80", "bedroom=10.0.0.3:80"] =
      Except.ok [("kitchen", "10.0.0.2:80"), ("bedroom", "10.0.0.3:80")] := by decide
  rw [hm] at hm2
  injection hm2 with hmm
  rw [← hmm]
  exact hlen

theorem parseDevicesGo_err (args : List String) (acc : List (String × String))
    (h : ∃ a ∈ args, splitLastEq a = none) :
    ∃ a ∈ args, splitLastEq a = none ∧
      parseDevicesGo args acc = Except.error (ParseError.malformedDeviceSpec a) := by
  induction args generalizing acc with
  | nil => simp at h
  | cons arg rest ih =>
    cases hs : splitLastEq arg with
    | none => exact ⟨arg, by simp, hs, parseDevicesGo_cons_none arg rest acc hs⟩
    | some p =>
      obtain ⟨n, v⟩ := p
      have h' : ∃ a ∈ rest, splitLastEq a = none := by
        rcases h with ⟨a, ha, hnone⟩
        rcases List.mem_cons.mp ha with rfl | ha
        · rw [hs] at hnone
          cases hnone
        · exact ⟨a, ha, hnone⟩
      obtain ⟨a, ha, h1, h2⟩ := ih (mapInsert acc n v) h'
      rw [parseDevicesGo_cons_some arg rest acc n v hs]
      exact ⟨a, List.mem_cons_of_mem _ ha, h1, h2⟩

/-- C7: for every token list containing a token with no `=` delimiter,
parsing fails with the MalformedDeviceSpec error naming an offending
token (the first one, as the code returns there) and yields no device
mapping (the result is an error, not a map). -/
theorem parseDevices_missing_delim (args : List String)
    (h : ∃ a ∈ args, splitLastEq a = none) :
    ∃ a ∈ args, splitLastEq a = none ∧
      parseDevices args = Except.error (ParseError.malformedDeviceSpec a) :=
  parseDevicesGo_err args [] h

theorem parseDevices_missing_delim_witness :
    ∃ a ∈ ["kitchen:80"], splitLastEq a = none ∧
      parseDevices ["kitchen:80"] = Except.error (ParseError.malformedDeviceSpec a) :=
  parseDevices_missing_delim ["kitchen:80"] ⟨"kitchen:80", by decide, by decide⟩

theorem parseDevicesGo_lookup (args : List String) (acc : List (String × String))
    (hall : ∀ a ∈ args, (splitLastEq a).isSome) :
    ∃ m, parseDevicesGo args acc = Except.ok m ∧
      ∀ k, mapLookup m k =
        (((args.filterMap splitLastEq).reverse.find? (fun p => p.1 == k)).map Prod.snd).or
          (mapLookup acc k) := by
  induction args generalizing acc with
  | nil => exact ⟨acc, rfl, fun k => by simp⟩
  | cons arg rest ih =>
    obtain ⟨⟨n, v⟩, hs⟩ := Option.isSome_iff_exists.mp (hall arg (by simp))
    rw [parseDevicesGo_cons_some arg rest acc n v hs]
    obtain ⟨m, hm, hk⟩ := ih (mapInsert acc n v) (fun a ha => hall a (List.mem_cons_of_mem _ ha))
    refine ⟨m, hm, fun k => ?_⟩
    rw [hk k]
    have hfm : (arg :: rest).filterMap splitLastEq = (n, v) :: rest.filterMap splitLastEq := by
      simp [List.filterMap_cons, hs]
    rw [hfm, List.reverse_cons, List.find?_append, mapLookup_mapInsert]
    cases hfind : (rest.filterMap splitLastEq).reverse.find? fun p => p.1 == k with
    | some p => simp
    | none =>
      by_cases hnk : n = k
      · subst hnk
        simp [List.find?]
      · have hbeq : (n == k) = false := by simpa using hnk
        have hkn : ¬k = n := fun h => hnk h.symm
        simp [List.find?, hbeq, hkn]

/-- C8: for every token list in which every token has a delimiter (in
particular lists where two or more tokens parse to the same name),
parsing succeeds without error and the resulting mapping binds each
name to the address of the last token in list order that parses to
that name (last write wins). -/
theorem parseDevices_last_write_wins (args : List String)
    (hall : ∀ a ∈ args, (splitLastEq a).isSome) :
    ∃ m, parseDevices args = Except.ok m ∧ ∀ k, mapLookup m k = lastValueFor args k := by
  obtain ⟨m, hm, hk⟩ := parseDevicesGo_lookup args [] hall
  refine ⟨m, hm, fun k => ?_⟩
  rw [hk k]
  simp [lastValueFor, mapLookup]

theorem parseDevices_last_write_wins_witness :
    mapLookup [("sensor", "10.0.0.9:80")] "sensor" =
      lastValueFor ["sensor=10.0.0.2:80", "sensor=10.0.0.9:80"] "sensor" := by
  obtain ⟨m, hm, hk⟩ :=
    parseDevices_last_write_wins ["sensor=10.0.0.2:80", "sensor=10.0.0.9:80"] (by decide)
  have hm2 : parseDevices ["sensor=10.0.0.2:80", "sensor=10.0.0.9:80"] =
      Except.ok [("sensor", "10.0.0.9:80")] := by decide
  rw [hm] at hm2
  injection hm2 with hmm
  rw [← hmm]
  exact hk "sensor"

/-- C10: parsing accepts tokens with an empty name or empty address:
"=addr" parses to the empty-string name mapped to "addr", and "a="
parses to name "a" mapped to the empty-string address — neither is
rejected as malformed. -/
theorem parseDevices_empty_name_or_address :
    parseDevices ["=addr"] = Except.ok [("", "addr")] ∧
      parseDevices ["a="] = Except.ok [("a", "")] := by
  decide

/-! ## Claims about the scrape collector -/

theorem collectOne_error_eq (name addr : String) (status : Nat) (body : Option AirData)
    (h : status ≠ 200 ∨ body = none) :
    collectOne name addr (ScrapeOutcome.response status body) =
      [⟨"awair_collection_errors_total", MetricType.counter, 1, [name]⟩] := by
  by_cases hs : status = 200
  · subst hs
    rcases h with h | h
    · exact absurd rfl h
    · subst h
      rfl
  · simp [collectOne, hs]

/-- C2: for every device whose scrape attempt reaches the device but
fails after transport — a non-success HTTP status, or a JSON decode
failure of a 200 response's body — that attempt emits exactly one
error-indicator metric (the `awair_collection_errors_total` counter at
value 1, labeled with the device's name), zero gauge measurements, and
nothing else (it stops processing the device: the whole emitted batch
has length 1). -/
theorem collectOne_http_or_decode_failure (name addr : String) (status : Nat)
    (body : Option AirData) (h : status ≠ 200 ∨ body = none) :
    (collectOne name addr (ScrapeOutcome.response status body)).countP (isErrorIndicator name) = 1 ∧
    (collectOne name addr (ScrapeOutcome.response status body)).countP isGauge = 0 ∧
    (collectOne name addr (ScrapeOutcome.response status body)).length = 1 := by
  rw [collectOne_error_eq name addr status body h]
  refine ⟨?_, ?_, rfl⟩
  · simp [isErrorIndicator]
  · simp [isGauge]

theorem collectOne_http_or_decode_failure_witness :
    ((500 : Nat) ≠ 200 ∨ (none : Option AirData) = none) ∧
    (collectOne "kitchen" "10.0.0.2:80" (ScrapeOutcome.response 500 none)).countP
        (isErrorIndicator "kitchen") = 1 ∧
    (collectOne "kitchen" "10.0.0.2:80" (ScrapeOutcome.response 500 none)).countP isGauge = 0 ∧
    (collectOne "kitchen" "10.0.0.2:80" (ScrapeOutcome.response 500 none)).length = 1 :=
  ⟨Or.inl (by decide),
    collectOne_http_or_decode_failure "kitchen" "10.0.0.2:80" 500 none (Or.inl (by decide))⟩

/-- C3: a device whose scrape attempt fails at the transport level
emits nothing at all for the cycle: zero measurements and zero
error-indicator increments — the transport-failure branch contributes
nothing to the output, in deliberate asymmetry with the HTTP-status
and decode failure modes, which (last conjunct) each emit one error
increment. -/
theorem collectOne_transport_failure (name addr : String) :
    collectOne name addr ScrapeOutcome.transportFailure = [] ∧
    (collectOne name addr ScrapeOutcome.transportFailure).countP isGauge = 0 ∧
    (collectOne name addr ScrapeOutcome.transportFailure).countP (isErrorIndicator name) = 0 ∧
    (∀ (status : Nat) (body : Option AirData), status ≠ 200 ∨ body = none →
      (collectOne name addr (ScrapeOutcome.response status body)).countP
        (isErrorIndicator name) = 1) := by
  refine ⟨rfl, rfl, rfl, ?_⟩
  intro status body h
  rw [collectOne_error_eq name addr status body h]
  simp [isErrorIndicator]

theorem collectOne_transport_failure_witness :
    collectOne "kitchen" "10.0.0.2:80" ScrapeOutcome.transportFailure = [] ∧
    (collectOne "kitchen" "10.0.0.2:80" (ScrapeOutcome.response 500 none)).countP
        (isErrorIndicator "kitchen") = 1 :=
  ⟨(collectOne_transport_failure "kitchen" "10.0.0.2:80").1,
   (collectOne_transport_failure "kitchen" "10.0.0.2:80").2.2.2 500 none (Or.inl (by decide))⟩

/-- C4 counterexample: at a concrete fully-successful response the
attempt emits 16 gauge measurements, not the seventeen (fifteen
numeric plus two derived Fahrenheit) the claim counts: the decoded
body has fourteen numeric fields, to which the two Fahrenheit gauges
are added. -/
theorem collectOne_success_not_seventeen :
    (collectOne "kitchen" "10.0.0.2:80"
        (ScrapeOutcome.response 200 (some sampleAirData))).countP isGauge = 16 ∧
    ¬((collectOne "kitchen" "10.0.0.2:80"
        (ScrapeOutcome.response 200 (some sampleAirData))).countP isGauge = 15 + 2) := by
  decide

/-- C4 (amended): for every device whose scrape attempt fully succeeds
(HTTP 200 and the body decodes), the attempt emits one gauge-valued
measurement per decoded numeric field — fourteen numeric gauges plus
the two derived Fahrenheit gauges, sixteen total — and no error
indicator, and every emitted measurement carries exactly one label
whose value is the device's registered name (not its address). -/
theorem collectOne_success_gauges (name addr : String) (d : AirData) :
    (collectOne name addr (ScrapeOutcome.response 200 (some d))).length = 16 ∧
    (collectOne name addr (ScrapeOutcome.response 200 (some d))).countP isGauge = 16 ∧
    (collectOne name addr (ScrapeOutcome.response 200 (some d))).countP (isErrorIndicator name) = 0 ∧
    (∀ m ∈ collectOne name addr (ScrapeOutcome.response 200 (some d)),
      m.mtype = MetricType.gauge ∧ m.labels = [name]) ∧
    (collectOne name addr (ScrapeOutcome.response 200 (some d))).map Metric.descName =
      ["awair_score", "awair_dew_point", "awair_dew_point_f", "awair_temp", "awair_temp_f",
       "awair_humid", "awair_abs_humid", "awair_co2", "awair_co2_est", "awair_co2_est_baseline",
       "awair_voc", "awair_voc_baseline", "awair_voc_ethanol_raw", "awair_voc_h2_raw",
       "awair_pm25", "awair_pm10_est"] ∧
    lookupMetricValue (collectOne name addr (ScrapeOutcome.response 200 (some d)))
        "awair_temp_f" = some (celsiusToFahrenheit d.temp) ∧
    lookupMetricValue (collectOne name addr (ScrapeOutcome.response 200 (some d)))
        "awair_dew_point_f" = some (celsiusToFahrenheit d.dewPoint) := by
  refine ⟨rfl, rfl, rfl, ?_, rfl, rfl, rfl⟩
  intro m hm
  have hout : collectOne name addr (ScrapeOutcome.response 200 (some d)) =
      [⟨"awair_score", MetricType.gauge, (d.score : ℚ), [name]⟩,
       ⟨"awair_dew_point", MetricType.gauge, d.dewPoint, [name]⟩,
       ⟨"awair_dew_point_f", MetricType.gauge, celsiusToFahrenheit d.dewPoint, [name]⟩,
       ⟨"awair_temp", MetricType.gauge, d.temp, [name]⟩,
       ⟨"awair_temp_f", MetricType.gauge, celsiusToFahrenheit d.temp, [name]⟩,
       ⟨"awair_humid", MetricType.gauge, d.humid, [name]⟩,
       ⟨"awair_abs_humid", MetricType.gauge, d.absHumid, [name]⟩,
       ⟨"awair_co2", MetricType.gauge, (d.co2 : ℚ), [name]⟩,
       ⟨"awair_co2_est", MetricType.gauge, (d.co2Est : ℚ), [name]⟩,
       ⟨"awair_co2_est_baseline", MetricType.gauge, (d.co2EstBaseline : ℚ), [name]⟩,
       ⟨"awair_voc", MetricType.gauge, (d.voc : ℚ), [name]⟩,
       ⟨"awair_voc_baseline", MetricType.gauge, (d.vocBaseline : ℚ), [name]⟩,
       ⟨"awair_voc_ethanol_raw", MetricType.gauge, (d.vocEthanolRaw : ℚ), [name]⟩,
       ⟨"awair_voc_h2_raw", MetricType.gauge, (d.vocH2Raw : ℚ), [name]⟩,
       ⟨"awair_pm25", MetricType.gauge, (d.pm25 : ℚ), [name]⟩,
       ⟨"awair_pm10_est", MetricType.gauge, (d.pm10Est : ℚ), [name]⟩] := rfl
  rw [hout] at hm
  simp only [List.mem_cons, List.not_mem_nil, or_false] at hm
  rcases hm with rfl | rfl | rfl | rfl | rfl | rfl | rfl | rfl | rfl | rfl | rfl | rfl | rfl |
    rfl | rfl | rfl <;> exact ⟨rfl, rfl⟩

theorem collectOne_success_gauges_witness :
    (collectOne "kitchen" "10.0.0.2:80"
        (ScrapeOutcome.response 200 (some sampleAirData))).length = 16 ∧
    lookupMetricValue (collectOne "kitchen" "10.0.0.2:80"
        (ScrapeOutcome.response 200 (some sampleAirData))) "awair_temp_f" =
      some (celsiusToFahrenheit sampleAirData.temp) :=
  ⟨(collectOne_success_gauges "kitchen" "10.0.0.2:80" sampleAirData).1,
   (collectOne_success_gauges "kitchen" "10.0.0.2:80" sampleAirData).2.2.2.2.2.1⟩

/-- C5: the Fahrenheit derivation computes F = C × 9 / 5 + 32 and is
applied to both Celsius-denominated fields (temp feeds awair_temp_f,
dew_point feeds awair_dew_point_f); in particular an input temp of 0
yields awair_temp = 0 and awair_temp_f = 32, and an input temp of 100
yields awair_temp_f = 212. -/
theorem celsiusToFahrenheit_spec :
    (∀ c : ℚ, celsiusToFahrenheit c = c * 9 / 5 + 32) ∧
    (∀ (name addr : String) (d : AirData), d.temp = 0 →
      lookupMetricValue (collectOne name addr (ScrapeOutcome.response 200 (some d)))
          "awair_temp" = some 0 ∧
      lookupMetricValue (collectOne name addr (ScrapeOutcome.response 200 (some d)))
          "awair_temp_f" = some 32) ∧
    (∀ (name addr : String) (d : AirData), d.temp = 100 →
      lookupMetricValue (collectOne name addr (ScrapeOutcome.response 200 (some d)))
          "awair_temp_f" = some 212) ∧
    (∀ (name addr : String) (d : AirData),
      lookupMetricValue (collectOne name addr (ScrapeOutcome.response 200 (some d)))
          "awair_temp_f" = some (celsiusToFahrenheit d.temp) ∧
      lookupMetricValue (collectOne name addr (ScrapeOutcome.response 200 (some d)))
          "awair_dew_point_f" = some (celsiusToFahrenheit d.dewPoint)) := by
  refine ⟨fun c => rfl, ?_, ?_, fun name addr d => ⟨rfl, rfl⟩⟩
  · intro name addr d h
    constructor
    · show some d.temp = some 0
      rw [h]
    · show some (celsiusToFahrenheit d.temp) = some 32
      rw [h]
      norm_num [celsiusToFahrenheit]
  · intro name addr d h
    show some (celsiusToFahrenheit d.temp) = some 212
    rw [h]
    norm_num [celsiusToFahrenheit]

theorem celsiusToFahrenheit_spec_witness :
    sampleAirDataZero.temp = 0 ∧ sampleAirDataHundred.temp = 100 ∧
    lookupMetricValue (collectOne "kitchen" "10.0.0.2:80"
        (ScrapeOutcome.response 200 (some sampleAirDataZero))) "awair_temp" = some 0 ∧
    lookupMetricValue (collectOne "kitchen" "10.0.0.2:80"
        (ScrapeOutcome.response 200 (some sampleAirDataZero))) "awair_temp_f" = some 32 ∧
    lookupMetricValue (collectOne "kitchen" "10.0.0.2:80"
        (ScrapeOutcome.response 200 (some sampleAirDataHundred))) "awair_temp_f" = some 212 := by
  obtain ⟨h1, h2⟩ := celsiusToFahrenheit_spec.2.1 "kitchen" "10.0.0.2:80" sampleAirDataZero rfl
  exact ⟨rfl, rfl, h1, h2,
    celsiusToFahrenheit_spec.2.2.1 "kitchen" "10.0.0.2:80" sampleAirDataHundred rfl⟩

/-- C1: a `collect` call over a registry of N devices performs exactly
one scrape attempt per registered device — N attempts, no retries —
and its result is complete: it is built from every device's finished
attempt (empty registry yields the empty batch; a registry d :: rest
yields d's whole attempt followed by the rest's, with no early
return); and one device's outcome never alters another device's
emitted measurements: a named device's contribution depends only on
that device's own outcome. -/
theorem collect_complete_and_isolated :
    (∀ outcomes : String → ScrapeOutcome, collect [] outcomes = []) ∧
    (∀ (d : String × String) (devices : List (String × String))
        (outcomes : String → ScrapeOutcome),
      collect (d :: devices) outcomes =
        collectOne d.1 d.2 (outcomes d.1) ++ collect devices outcomes) ∧
    (∀ (devices : List (String × String)) (outcomes : String → ScrapeOutcome),
      (scrapeAttempts devices outcomes).length = devices.length) ∧
    (∀ (devices : List (String × String)) (o o' : String → ScrapeOutcome) (name : String),
      o name = o' name →
        deviceContribution devices o name = deviceContribution devices o' name) := by
  refine ⟨fun _ => rfl, fun d devices outcomes => rfl,
    fun devices outcomes => by simp [scrapeAttempts], ?_⟩
  intro devices o o' name h
  unfold deviceContribution
  congr 1
  apply List.map_congr_left
  intro d hd
  have hdname : d.1 = name := by simpa using (List.mem_filter.mp hd).2
  rw [hdname, h]

theorem collect_complete_and_isolated_witness :
    deviceContribution [("kitchen", "10.0.0.2:80"), ("bedroom", "10.0.0.3:80")]
        (fun n => if n == "bedroom" then ScrapeOutcome.transportFailure
          else ScrapeOutcome.response 200 (some sampleAirData)) "kitchen" =
      deviceContribution [("kitchen", "10.0.0.2:80"), ("bedroom", "10.0.0.3:80")]
        (fun n => if n == "bedroom" then ScrapeOutcome.response 500 none
          else ScrapeOutcome.response 200 (some sampleAirData)) "kitchen" :=
  collect_complete_and_isolated.2.2.2 [("kitchen", "10.0.0.2:80"), ("bedroom", "10.0.0.3:80")]
    (fun n => if n == "bedroom" then ScrapeOutcome.transportFailure
      else ScrapeOutcome.response 200 (some sampleAirData))
    (fun n => if n == "bedroom" then ScrapeOutcome.response 500 none
      else ScrapeOutcome.response 200 (some sampleAirData))
    "kitchen" (by decide)

/-- C9 counterexample: no descriptor in the exposed catalog is named
`collection_errors_total`; the error counter's registered name is
`awair_collection_errors_total`. -/
theorem catalog_no_unprefixed_counter :
    ¬∃ dsc ∈ describe newCollector, dsc.fqName = "collection_errors_total" := by
  decide

/-- C9 (amended): the exposed metric catalog contains the error
counter named `awair_collection_errors_total` carrying the label
`sensor`; every descriptor in the catalog carries the single variable
label `sensor`; and every metric the collector can emit uses a
descriptor of the catalog, is counter-typed exactly when it is that
error counter (gauge-typed otherwise), and carries the single label
value = the device's name. -/
theorem metrics_catalog :
    newCollector.Errors.fqName = "awair_collection_errors_total" ∧
    newCollector.Errors ∈ describe newCollector ∧
    (∀ dsc ∈ describe newCollector, dsc.variableLabels = ["sensor"]) ∧
    (∀ (name addr : String) (outcome : ScrapeOutcome) (m : Metric),
      m ∈ collectOne name addr outcome →
        m.descName ∈ (describe newCollector).map MetricDesc.fqName ∧
        (m.mtype = MetricType.counter ↔ m.descName = "awair_collection_errors_total") ∧
        m.labels = [name]) := by
  refine ⟨rfl, by decide, by decide, ?_⟩
  intro name addr outcome m hm
  cases outcome with
  | transportFailure => cases hm
  | response status body =>
    by_cases hs : status = 200
    · subst hs
      cases body with
      | none =>
        have hout : collectOne name addr (ScrapeOutcome.response 200 none) =
            [⟨"awair_collection_errors_total", MetricType.counter, 1, [name]⟩] := rfl
        rw [hout] at hm
        simp only [List.mem_cons, List.not_mem_nil, or_false] at hm
        subst hm
        exact ⟨by simp [describe, newCollector], by simp, rfl⟩
      | some d =>
        have hout : collectOne name addr (ScrapeOutcome.response 200 (some d)) =
            [⟨"awair_score", MetricType.gauge, (d.score : ℚ), [name]⟩,
             ⟨"awair_dew_point", MetricType.gauge, d.dewPoint, [name]⟩,
             ⟨"awair_dew_point_f", MetricType.gauge, celsiusToFahrenheit d.dewPoint, [name]⟩,
             ⟨"awair_temp", MetricType.gauge, d.temp, [name]⟩,
             ⟨"awair_temp_f", MetricType.gauge, celsiusToFahrenheit d.temp, [name]⟩,
             ⟨"awair_humid", MetricType.gauge, d.humid, [name]⟩,
             ⟨"awair_abs_humid", MetricType.gauge, d.absHumid, [name]⟩,
             ⟨"awair_co2", MetricType.gauge, (d.co2 : ℚ), [name]⟩,
             ⟨"awair_co2_est", MetricType.gauge, (d.co2Est : ℚ), [name]⟩,
             ⟨"awair_co2_est_baseline", MetricType.gauge, (d.co2EstBaseline : ℚ), [name]⟩,
             ⟨"awair_voc", MetricType.gauge, (d.voc : ℚ), [name]⟩,
             ⟨"awair_voc_baseline", MetricType.gauge, (d.vocBaseline : ℚ), [name]⟩,
             ⟨"awair_voc_ethanol_raw", MetricType.gauge, (d.vocEthanolRaw : ℚ), [name]⟩,
             ⟨"awair_voc_h2_raw", MetricType.gauge, (d.vocH2Raw : ℚ), [name]⟩,
             ⟨"awair_pm25", MetricType.gauge, (d.pm25 : ℚ), [name]⟩,
             ⟨"awair_pm10_est", MetricType.gauge, (d.pm10Est : ℚ), [name]⟩] := rfl
        rw [hout] at hm
        simp only [List.mem_cons, List.not_mem_nil, or_false] at hm
        rcases hm with rfl | rfl | rfl | rfl | rfl | rfl | rfl | rfl | rfl | rfl | rfl | rfl |
          rfl | rfl | rfl | rfl <;> exact ⟨by simp [describe, newCollector], by simp, rfl⟩
    · rw [collectOne_error_eq name addr status body (Or.inl hs)] at hm
      simp only [List.mem_cons, List.not_mem_nil, or_false] at hm
      subst hm
      exact ⟨by simp [describe, newCollector], by simp, rfl⟩

theorem metrics_catalog_witness :
    (Metric.mk "awair_score" MetricType.gauge (87 : ℚ) ["kitchen"]).descName ∈
        (describe newCollector).map MetricDesc.fqName ∧
    ((Metric.mk "awair_score" MetricType.gauge (87 : ℚ) ["kitchen"]).mtype = MetricType.counter ↔
      (Metric.mk "awair_score" MetricType.gauge (87 : ℚ) ["kitchen"]).descName =
        "awair_collection_errors_total") ∧
    (Metric.mk "awair_score" MetricType.gauge (87 : ℚ) ["kitchen"]).labels = ["kitchen"] :=
  metrics_catalog.2.2.2 "kitchen" "10.0.0.2:80"
    (ScrapeOutcome.response 200 (some sampleAirData))
    (Metric.mk "awair_score" MetricType.gauge (87 : ℚ) ["kitchen"]) (by decide)

end AwairExporter
